import Mathlib

/-!
# KVM inter-VM shared memory driver (`drivers/staging/ivshmem/ivshmem.c`)

A shallow embedding of the driver's entry points (`open`, `mmap`, `ioctl`,
`probe`, `remove`) as state-passing functions, followed by theorems about them.

Machine integers are natural numbers or integers reduced explicitly:
`unsigned long` modulo `2 ^ BITS_PER_LONG`, `unsigned int` modulo `2 ^ 32`,
`int` as an integer wrapped into `[-2^31, 2^31)` (the kernel is built with
wrapping signed arithmetic).

Stores through the driver's pointers `regs` and `base_addr` are defined only
while the bus has the corresponding BAR mapped at that address; otherwise the
call faults (`Outcome.faults`).
-/

namespace Ivshmem

/-! ## Kernel configuration

Constants and macros that come from kernel headers, not from the driver file.
They are parameters of the embedding. -/

/-- Header-provided constants the driver is compiled against. -/
structure Kconfig where
  /-- width of `unsigned long` -/
  BITS_PER_LONG : Nat
  /-- log2 of the page size -/
  PAGE_SHIFT : Nat
  /-- the `VM_SHARED` bit of `vm_flags` -/
  VM_SHARED : Nat
  /-- the `VM_RESERVED` bits (`VM_DONTEXPAND | VM_DONTDUMP` when the kernel has dropped it) -/
  VM_RESERVED : Nat
  /-- the value of `_IOR('K', 0, int)` -/
  IVSHMEM_IOCTL_COMM : Nat
  /-- the `MINOR` macro, from a device number to its minor number -/
  MINOR : Nat → Nat

/-- A 64-bit configuration with 4 KiB pages and the asm-generic encodings. -/
def x86_64 : Kconfig where
  BITS_PER_LONG := 64
  PAGE_SHIFT := 12
  VM_SHARED := 0x8
  VM_RESERVED := 0x00040000 ||| 0x04000000
  IVSHMEM_IOCTL_COMM := 0x80044B00
  MINOR := fun d => d % 2 ^ 20

/-- A 32-bit configuration with 4 KiB pages and the asm-generic encodings. -/
def i386 : Kconfig where
  BITS_PER_LONG := 32
  PAGE_SHIFT := 12
  VM_SHARED := 0x8
  VM_RESERVED := 0x00040000 ||| 0x04000000
  IVSHMEM_IOCTL_COMM := 0x80044B00
  MINOR := fun d => d % 2 ^ 20

def ENXIO : Int := 6
def EBUSY : Int := 16
def ENODEV : Int := 19
def EINVAL : Int := 22

def KVM_IVSHMEM_DEVICE_MINOR_NUM : Nat := 0

/-! Register offsets of the control window (the anonymous `enum`). -/

def IntrMask : Nat := 0x00
def IntrStatus : Nat := 0x04
def IVPosition : Nat := 0x08
def Doorbell : Nat := 0x0c
def UMA_COMM : Nat := 0x10

/-! ## Machine arithmetic -/

/-- Conversion to `unsigned long`. -/
def ulong (K : Kconfig) (x : Nat) : Nat := x % 2 ^ K.BITS_PER_LONG

/-- Subtraction of two `unsigned long` values. -/
def ulong_sub (K : Kconfig) (a b : Nat) : Nat :=
  (ulong K a + (2 ^ K.BITS_PER_LONG - ulong K b)) % 2 ^ K.BITS_PER_LONG

/-- Conversion to `unsigned int` (also `u32`). -/
def uint (x : Nat) : Nat := x % 2 ^ 32

/-- Conversion of an integer to `int`: wrap into `[-2^31, 2^31)`. -/
def to_int (x : Int) : Int := (x + 2 ^ 31) % 2 ^ 32 - 2 ^ 31

/-- Conversion of an `int` to `unsigned int`. -/
def int_to_uint (i : Int) : Nat := (i % 2 ^ 32).toNat

/-- Conversion of an integer value to `unsigned char`. -/
def to_uchar (x : Int) : Nat := (x % 256).toNat

/-- The page size `1UL << PAGE_SHIFT`. -/
def PAGE_SIZE (K : Kconfig) : Nat := ulong K (1 <<< K.PAGE_SHIFT)

/-- Modelled from the spec: `x & ~PAGE_MASK`, the offset of `x` inside its page
(the `PAGE_MASK` macro is in the architecture headers). -/
def page_offset (K : Kconfig) (x : Nat) : Nat := x % PAGE_SIZE K

/-- Modelled from the spec: `x & PAGE_MASK`, `x` aligned down to a page boundary
(the `PAGE_MASK` macro is in the architecture headers). -/
def page_base (K : Kconfig) (x : Nat) : Nat := x / PAGE_SIZE K * PAGE_SIZE K

/-- Modelled from the spec: `PAGE_ALIGN(x)`, `x` aligned up to a page boundary in
`unsigned long` arithmetic (the macro is in the memory-management headers). -/
def PAGE_ALIGN (K : Kconfig) (x : Nat) : Nat :=
  page_base K (ulong K (x + (PAGE_SIZE K - 1)))

/-! ## Data model -/

/-- The driver's `struct kvm_ivshmem_device`; pointers are addresses, `0` is `NULL`. -/
structure kvm_ivshmem_device where
  regs : Nat
  base_addr : Nat
  regaddr : Nat
  reg_size : Nat
  ioaddr : Nat
  ioaddr_size : Nat
  irq : Nat
  dev : Nat
  msix_names : Nat
  msix_entries : Nat
  nvectors : Int
  enabled : Bool
deriving DecidableEq, Repr

/-- What the driver reads of a `struct pci_dev`: its identity, its interrupt
line and, per BAR, the start and length of the resource at the bus's full
address width (`resource_size_t`). -/
structure pci_dev where
  id : Nat
  irq : Nat
  resource_start : Nat → Nat
  resource_len : Nat → Nat

/-- Calls the driver makes into the rest of the kernel, in program order. -/
inductive Event where
  | pci_enable_device (result : Int)
  | pci_request_regions (result : Int)
  | pci_iomap (bar : Nat) (addr : Nat)
  | pci_iounmap (addr : Nat)
  | pci_release_regions
  | pci_disable_device
  | free_irq (irq : Nat)
  | writel (value : Nat) (offset : Nat)
  | io_remap_pfn_range (addr pfn size prot : Nat) (result : Int)
deriving DecidableEq, Repr

/-- Bus resources held for the device: the enable count of the bus device, the
count of region claims, and the live BAR mappings as (BAR, kernel address). -/
structure Bus where
  enable_cnt : Int
  regions : Int
  iomaps : List (Nat × Nat)
deriving DecidableEq, Repr

/-- The state the driver runs against. `ctrl` is the content of the
control-register window by byte offset from `regs`; `shmem` is memory content
by signed byte offset from `base_addr`, the shared-memory window being the
offsets `0 ≤ i < ioaddr_size`. -/
structure World where
  kvm_ivshmem_dev : kvm_ivshmem_device
  ctrl : Nat → Nat
  shmem : Int → Nat
  bus : Bus
  trace : List Event

/-- The `vm_area_struct` fields the driver uses. -/
structure vm_area_struct where
  vm_start : Nat
  vm_end : Nat
  vm_pgoff : Nat
  vm_flags : Nat
  vm_page_prot : Nat
deriving DecidableEq, Repr

/-- Record a call in the trace. -/
def World.emit (w : World) (e : Event) : World :=
  { w with trace := w.trace ++ [e] }

/-- The static storage at module load: the zeroed device record, nothing held. -/
def World.init (ctrl : Nat → Nat) (shmem : Int → Nat) : World where
  kvm_ivshmem_dev :=
    { regs := 0, base_addr := 0, regaddr := 0, reg_size := 0, ioaddr := 0,
      ioaddr_size := 0, irq := 0, dev := 0, msix_names := 0, msix_entries := 0,
      nvectors := 0, enabled := false }
  ctrl := ctrl
  shmem := shmem
  bus := { enable_cnt := 0, regions := 0, iomaps := [] }
  trace := []

/-! ## Open -/

/-- The function `kvm_ivshmem_open`: the return value and the state afterwards. -/
def kvm_ivshmem_open (K : Kconfig) (w : World) (i_rdev : Nat) : Int × World :=
  if K.MINOR i_rdev ≠ KVM_IVSHMEM_DEVICE_MINOR_NUM then
    (-ENODEV, w)
  else
    (0, w)

/-! ## Mapping -/

/-- The function `kvm_ivshmem_mmap`. `remap` is the outcome of
`io_remap_pfn_range` as a function of its address, page frame number, size and
protection arguments. Returns the return value, the `vma` and the state
afterwards. -/
def kvm_ivshmem_mmap (K : Kconfig) (remap : Nat → Nat → Nat → Nat → Int)
    (w : World) (vma : vm_area_struct) : Int × vm_area_struct × World :=
  let off := ulong K (vma.vm_pgoff <<< K.PAGE_SHIFT)
  let start := ulong K (uint w.kvm_ivshmem_dev.ioaddr)
  let len := PAGE_ALIGN K (ulong K (page_offset K start + uint w.kvm_ivshmem_dev.ioaddr_size))
  let start := page_base K start
  if ulong K (ulong_sub K vma.vm_end vma.vm_start + off) > len then
    (-EINVAL, vma, w)
  else
    let off := ulong K (off + start)
    let vma1 := { vma with vm_pgoff := off >>> K.PAGE_SHIFT }
    let vma2 := { vma1 with vm_flags := vma1.vm_flags ||| (K.VM_SHARED ||| K.VM_RESERVED) }
    let r := remap vma2.vm_start (off >>> K.PAGE_SHIFT)
      (ulong_sub K vma2.vm_end vma2.vm_start) vma2.vm_page_prot
    let w1 := w.emit (Event.io_remap_pfn_range vma2.vm_start (off >>> K.PAGE_SHIFT)
      (ulong_sub K vma2.vm_end vma2.vm_start) vma2.vm_page_prot r)
    if r ≠ 0 then
      (- ENXIO, vma2, w1)
    else
      (0, vma2, w1)

/-- The page frame number `off >> PAGE_SHIFT` that `kvm_ivshmem_mmap` hands to
`io_remap_pfn_range` for a request it accepts. -/
def mmap_pfn (K : Kconfig) (w : World) (vma : vm_area_struct) : Nat :=
  ulong K (ulong K (vma.vm_pgoff <<< K.PAGE_SHIFT)
    + page_base K (ulong K (uint w.kvm_ivshmem_dev.ioaddr))) >>> K.PAGE_SHIFT

/-- The function `kvm_ivshmem_release`. -/
def kvm_ivshmem_release (w : World) : Int × World := (0, w)

/-! ## Command dispatcher -/

/-- How a call ends: it returns a value; it faults, storing through a pointer
at which no window is mapped (`NULL`, or the stale address of a mapping since
removed); or the model ran out of fuel. -/
inductive Outcome (α : Type) where
  | returns (a : α)
  | faults
  | out_of_fuel
deriving DecidableEq, Repr

/-- Apply a function to the value a call returns. -/
def Outcome.map {α β : Type} (f : α → β) : Outcome α → Outcome β
  | Outcome.returns a => Outcome.returns (f a)
  | Outcome.faults => Outcome.faults
  | Outcome.out_of_fuel => Outcome.out_of_fuel

/-- The function `ivshmem_bar2_map_base`. -/
def ivshmem_bar2_map_base (w : World) : Nat := w.kvm_ivshmem_dev.base_addr

/-- The function `reset_bitmap`: `memset(bitmap, 0, size)` unless `bitmap` is
`NULL`. The stores go through `bitmap`: with a non-zero `size` they fault
unless BAR 2 is mapped at that address. -/
def reset_bitmap (w : World) : Outcome World :=
  let bitmap := w.kvm_ivshmem_dev.base_addr
  let size := uint w.kvm_ivshmem_dev.ioaddr_size
  if bitmap = 0 then
    Outcome.returns w
  else if size = 0 ∨ (2, bitmap) ∈ w.bus.iomaps then
    Outcome.returns
      { w with shmem := fun off => if 0 ≤ off ∧ off < (size : Int) then 0 else w.shmem off }
  else
    Outcome.faults

/-- The `for` loop of `write_test_bitmap_pattern`, from the current value of the
`int` counter `i`: the test `i < size` is made in `unsigned int`, the store goes
to `bitmap[i]`, the remainder `i % 4` truncates towards zero, and `i ++` is an
`int` increment. `mapped` says whether BAR 2 is mapped at `bitmap`; a store
through an unmapped `bitmap` faults. -/
def write_test_bitmap_pattern_loop (mapped : Bool) (size : Nat) :
    Nat → Int → (Int → Nat) → Outcome (Int → Nat)
  | 0, i, bitmap => if int_to_uint i < size then Outcome.out_of_fuel else Outcome.returns bitmap
  | fuel + 1, i, bitmap =>
    if int_to_uint i < size then
      if mapped then
        write_test_bitmap_pattern_loop mapped size fuel (to_int (i + 1))
          (Function.update bitmap i (to_uchar (65 + Int.tmod i 4)))
      else
        Outcome.faults
    else
      Outcome.returns bitmap

/-- The function `write_test_bitmap_pattern`. -/
def write_test_bitmap_pattern (w : World) : Outcome World :=
  let bitmap := w.kvm_ivshmem_dev.base_addr
  let size := uint w.kvm_ivshmem_dev.ioaddr_size
  if bitmap = 0 then
    Outcome.returns w
  else
    (write_test_bitmap_pattern_loop (decide ((2, bitmap) ∈ w.bus.iomaps)) size (2 ^ 32) 0
      w.shmem).map fun m => { w with shmem := m }

/-- A 32-bit store into the control-register window at `offset`, the window
being mapped: the register takes the value and the call is recorded. -/
def mmio_store (value : Nat) (offset : Nat) (w : World) : World :=
  ({ w with ctrl := Function.update w.ctrl offset (uint value) }).emit
    (Event.writel (uint value) offset)

/-- The call `writel(value, kvm_ivshmem_dev.regs + offset)`: a 32-bit store
through `regs`, which faults unless BAR 0 is mapped at that address. -/
def writel (value : Nat) (offset : Nat) (w : World) : Outcome World :=
  if (0, w.kvm_ivshmem_dev.regs) ∈ w.bus.iomaps then
    Outcome.returns (mmio_store value offset w)
  else
    Outcome.faults

/-- The function `handle_ivshmen_cmd`, on its `int` argument. -/
def handle_ivshmen_cmd (arg : Int) (w : World) : Outcome World :=
  if arg = 1 then
    write_test_bitmap_pattern w
  else if arg = 2 then
    reset_bitmap w
  else if arg = 3 then
    Outcome.returns w
  else if arg = 0x50 ∨ arg = 0x51 ∨ arg = 0x52 then
    writel (int_to_uint arg) UMA_COMM w
  else
    Outcome.returns w

/-- The function `kvm_ivshmem_ioctl`: `cmd` is an `unsigned int`, `arg` an
`unsigned long` that the call of `handle_ivshmen_cmd` converts to `int`. -/
def kvm_ivshmem_ioctl (K : Kconfig) (w : World) (cmd : Nat) (arg : Nat) :
    Outcome (Int × World) :=
  if uint cmd = K.IVSHMEM_IOCTL_COMM then
    (handle_ivshmen_cmd (to_int (ulong K arg)) w).map fun w1 => (0, w1)
  else
    Outcome.returns (0, w)

/-! ## Bus primitives -/

/-- What the bus answers during one attach: the result of `pci_enable_device`,
whether `pci_request_regions` succeeds, and the addresses `pci_iomap` returns
for BAR 2 and BAR 0 (`0` is `NULL`). -/
structure BusAnswers where
  enable_result : Int
  request_ok : Bool
  iomap_bar2 : Nat
  iomap_bar0 : Nat
deriving DecidableEq, Repr

/-- Modelled from the spec: `pci_enable_device`, which enables the bus device
when it returns `0` (the PCI core is outside the driver file). -/
def pci_enable_device (result : Int) (w : World) : World :=
  ({ w with bus := { w.bus with
      enable_cnt := if result = 0 then w.bus.enable_cnt + 1 else w.bus.enable_cnt } }).emit
    (Event.pci_enable_device result)

/-- Modelled from the spec: `pci_disable_device`, which gives up one enable of
the bus device (the PCI core is outside the driver file). -/
def pci_disable_device (w : World) : World :=
  ({ w with bus := { w.bus with enable_cnt := w.bus.enable_cnt - 1 } }).emit
    Event.pci_disable_device

/-- Modelled from the spec: `pci_request_regions`, which claims the device's
regions and returns `0`, or claims nothing and returns `-EBUSY` (the PCI core
is outside the driver file). -/
def pci_request_regions (ok : Bool) (w : World) : Int × World :=
  let result : Int := if ok then 0 else -EBUSY
  (result, ({ w with bus := { w.bus with
      regions := if ok then w.bus.regions + 1 else w.bus.regions } }).emit
    (Event.pci_request_regions result))

/-- Modelled from the spec: `pci_release_regions`, which gives up one claim of
the regions (the PCI core is outside the driver file). -/
def pci_release_regions (w : World) : World :=
  ({ w with bus := { w.bus with regions := w.bus.regions - 1 } }).emit
    Event.pci_release_regions

/-- Modelled from the spec: `pci_iomap`, which maps a BAR at the address it
returns, or maps nothing and returns `NULL` (the PCI core is outside the driver
file). -/
def pci_iomap (bar : Nat) (addr : Nat) (w : World) : Nat × World :=
  (addr, ({ w with bus := { w.bus with
      iomaps := if addr = 0 then w.bus.iomaps else (bar, addr) :: w.bus.iomaps } }).emit
    (Event.pci_iomap bar addr))

/-- Modelled from the spec: `pci_iounmap`, which removes the mapping that lives
at the given address, if there is one (the PCI core is outside the driver
file). -/
def pci_iounmap (addr : Nat) (w : World) : World :=
  ({ w with bus := { w.bus with
      iomaps := w.bus.iomaps.eraseP fun m => m.2 = addr } }).emit
    (Event.pci_iounmap addr)

/-- Modelled from the spec: `free_irq`, which touches no state of this model
(interrupts are outside the driver file). -/
def free_irq (irq : Nat) (w : World) : World :=
  w.emit (Event.free_irq irq)

/-- Update the driver's device record. -/
def World.setDev (w : World) (f : kvm_ivshmem_device → kvm_ivshmem_device) : World :=
  { w with kvm_ivshmem_dev := f w.kvm_ivshmem_dev }

/-! ## Attach and detach -/

/-- The `pci_disable:` exit of `kvm_ivshmem_probe_device`. -/
def probe_pci_disable (w : World) : Int × World :=
  (-EBUSY, pci_disable_device w)

/-- The `pci_release:` exit of `kvm_ivshmem_probe_device`. -/
def probe_pci_release (w : World) : Int × World :=
  probe_pci_disable (pci_release_regions w)

/-- The `reg_release:` exit of `kvm_ivshmem_probe_device`. -/
def probe_reg_release (w : World) : Int × World :=
  probe_pci_release (pci_iounmap w.kvm_ivshmem_dev.base_addr w)

/-- The function `kvm_ivshmem_probe_device`. Its `writel` comes after the test
of `regs`, which `pci_iomap` has just mapped, so the store is `mmio_store`. -/
def kvm_ivshmem_probe_device (o : BusAnswers) (w : World) (pdev : pci_dev) : Int × World :=
  let result := o.enable_result
  let w := pci_enable_device result w
  if result ≠ 0 then
    (result, w)
  else
    let (result, w) := pci_request_regions o.request_ok w
    if result < 0 then
      probe_pci_disable w
    else
      let w := w.setDev fun d => { d with ioaddr := uint (pdev.resource_start 2) }
      let w := w.setDev fun d => { d with ioaddr_size := uint (pdev.resource_len 2) }
      let (p, w) := pci_iomap 2 o.iomap_bar2 w
      let w := w.setDev fun d => { d with base_addr := p }
      if w.kvm_ivshmem_dev.base_addr = 0 then
        probe_pci_release w
      else
        let w := w.setDev fun d => { d with regaddr := uint (pdev.resource_start 0) }
        let w := w.setDev fun d => { d with reg_size := uint (pdev.resource_len 0) }
        let (p, w) := pci_iomap 0 o.iomap_bar0 w
        let w := w.setDev fun d => { d with regs := p }
        let w := w.setDev fun d => { d with dev := pdev.id }
        if w.kvm_ivshmem_dev.regs = 0 then
          probe_reg_release w
        else
          let w := mmio_store 0x0 IntrMask w
          let w := w.setDev fun d => { d with enabled := true }
          (0, w)

/-- The function `kvm_ivshmem_remove_device`. -/
def kvm_ivshmem_remove_device (w : World) (pdev : pci_dev) : World :=
  let w := free_irq pdev.irq w
  let w := pci_iounmap w.kvm_ivshmem_dev.regs w
  let w := pci_iounmap w.kvm_ivshmem_dev.base_addr w
  let w := pci_release_regions w
  pci_disable_device w

/-! ## Derived notions used by the statements -/

/-- BAR `bar` is currently claimed and mapped. -/
def Bus.claimed_and_mapped (b : Bus) (bar : Nat) : Prop :=
  0 < b.regions ∧ ∃ addr, (bar, addr) ∈ b.iomaps

/-- Attach and detach events of the bus. -/
inductive BusEvent where
  | attach (o : BusAnswers) (pdev : pci_dev)
  | detach (pdev : pci_dev)

/-- The state after one bus event. -/
def step (w : World) : BusEvent → World
  | BusEvent.attach o pdev => (kvm_ivshmem_probe_device o w pdev).2
  | BusEvent.detach pdev => kvm_ivshmem_remove_device w pdev

/-- The state after a sequence of bus events, first event first. -/
def run (w : World) (es : List BusEvent) : World := es.foldl step w


/-! ## Resources acquired and released by a run of calls -/

/-- A bus resource the driver can hold. -/
inductive Resource where
  | bus_device
  | regions
  | mapping (addr : Nat)
deriving DecidableEq, Repr

/-- The resource a call acquires, if it acquires one. -/
def Event.acquires : Event → Option Resource
  | Event.pci_enable_device result => if result = 0 then some Resource.bus_device else none
  | Event.pci_request_regions result => if result = 0 then some Resource.regions else none
  | Event.pci_iomap _ addr => if addr = 0 then none else some (Resource.mapping addr)
  | _ => none

/-- The resource a call releases, if it releases one. -/
def Event.releases : Event → Option Resource
  | Event.pci_disable_device => some Resource.bus_device
  | Event.pci_release_regions => some Resource.regions
  | Event.pci_iounmap addr => if addr = 0 then none else some (Resource.mapping addr)
  | _ => none

/-- The resources acquired by a run of calls, in order. -/
def acquired (evs : List Event) : List Resource := evs.filterMap Event.acquires

/-- The resources released by a run of calls, in order. -/
def released (evs : List Event) : List Resource := evs.filterMap Event.releases

/-- The call is a register write. -/
def Event.is_writel : Event → Bool
  | Event.writel _ _ => true
  | _ => false

/-- The call is a page install. -/
def Event.is_io_remap : Event → Bool
  | Event.io_remap_pfn_range _ _ _ _ _ => true
  | _ => false

/-! ## Concrete inputs -/

/-- All-zero control registers. -/
def zero_ctrl : Nat → Nat := fun _ => 0

/-- All-zero memory around the shared-memory window. -/
def zero_shmem : Int → Nat := fun _ => 0

/-- A device whose BARs lie below 4 GiB: 256 bytes of registers, 1 MiB of shared memory. -/
def low_pdev : pci_dev where
  id := 1
  irq := 11
  resource_start := fun bar => if bar = 2 then 0xF0000000 else if bar = 0 then 0xFEBF1000 else 0
  resource_len := fun bar => if bar = 2 then 0x100000 else if bar = 0 then 0x100 else 0

/-- A device whose shared-memory BAR is assigned at 4 GiB. -/
def high_pdev : pci_dev where
  id := 1
  irq := 11
  resource_start := fun bar => if bar = 2 then 0x100000000 else if bar = 0 then 0xFEBF1000 else 0
  resource_len := fun bar => if bar = 2 then 0x100000 else if bar = 0 then 0x100 else 0

/-- A device whose shared-memory resource is 2 GiB + 2 bytes long. -/
def wide_pdev : pci_dev where
  id := 1
  irq := 11
  resource_start := fun bar => if bar = 2 then 0x40000000 else if bar = 0 then 0xFEBF1000 else 0
  resource_len := fun bar => if bar = 2 then 0x80000002 else if bar = 0 then 0x100 else 0

/-- Every step of the attach succeeds. -/
def all_ok : BusAnswers where
  enable_result := 0
  request_ok := true
  iomap_bar2 := 0x200000
  iomap_bar0 := 0x100000

/-- The mapping of the control-register window fails. -/
def bar0_fails : BusAnswers where
  enable_result := 0
  request_ok := true
  iomap_bar2 := 0x200000
  iomap_bar0 := 0

/-- The page-install primitive succeeds on every request. -/
def remap_ok : Nat → Nat → Nat → Nat → Int := fun _ _ _ _ => 0

/-- The state at module load with zeroed memory. -/
def boot : World := World.init zero_ctrl zero_shmem

/-- The memory the pattern loop leaves behind when it starts at counter `i`:
the `int` offsets whose `unsigned int` value lies in `[i, size)` hold the
pattern byte, everything else is as before. -/
def pattern_from (size : Nat) (i : Int) (m : Int → Nat) : Int → Nat :=
  fun off =>
    if -2 ^ 31 ≤ off ∧ off < 2 ^ 31 ∧ int_to_uint i ≤ int_to_uint off ∧ int_to_uint off < size then
      to_uchar (65 + Int.tmod off 4)
    else
      m off


/-! # Theorems -/

/-! ## Open and the enabled flag -/

/-- C7: an open request for a minor number other than the supported one returns
`-ENODEV`, an open request for the supported minor on an enabled device returns
`0`, and the state is unchanged either way. -/
theorem open_checks_minor (K : Kconfig) (w : World) (i_rdev : Nat) :
    (K.MINOR i_rdev ≠ KVM_IVSHMEM_DEVICE_MINOR_NUM →
      (kvm_ivshmem_open K w i_rdev).1 = -ENODEV) ∧
    (K.MINOR i_rdev = KVM_IVSHMEM_DEVICE_MINOR_NUM → w.kvm_ivshmem_dev.enabled = true →
      (kvm_ivshmem_open K w i_rdev).1 = 0) ∧
    (kvm_ivshmem_open K w i_rdev).2 = w := by
  unfold kvm_ivshmem_open
  refine ⟨fun h => ?_, fun h _ => ?_, ?_⟩
  · rw [if_pos h]
  · rw [if_neg (not_not.mpr h)]
  · split <;> rfl

/-- Witness of `open_checks_minor`: minor 1 is refused, minor 0 of an attached
device is accepted. -/
theorem open_checks_minor_witness :
    (kvm_ivshmem_open x86_64 boot 1).1 = -ENODEV ∧
    (kvm_ivshmem_open x86_64 (kvm_ivshmem_probe_device all_ok boot low_pdev).2 0).1 = 0 :=
  ⟨(open_checks_minor x86_64 boot 1).1 (by decide),
   (open_checks_minor x86_64 (kvm_ivshmem_probe_device all_ok boot low_pdev).2 0).2.1
     (by decide) (by decide)⟩

/-- C8, as the code has it: neither entry point reads the enabled flag. Whatever
the flag is set to, `kvm_ivshmem_open` returns the same value (`0` for the
supported minor, `-ENODEV` for any other), and `kvm_ivshmem_mmap` returns the
same value, leaves the same `vma` and makes the same calls. -/
theorem open_and_mmap_ignore_enabled (K : Kconfig) (remap : Nat → Nat → Nat → Nat → Int)
    (w : World) (b : Bool) (i_rdev : Nat) (vma : vm_area_struct) :
    (kvm_ivshmem_open K (w.setDev fun d => { d with enabled := b }) i_rdev).1
      = (kvm_ivshmem_open K w i_rdev).1 ∧
    (K.MINOR i_rdev = KVM_IVSHMEM_DEVICE_MINOR_NUM →
      (kvm_ivshmem_open K (w.setDev fun d => { d with enabled := b }) i_rdev).1 = 0) ∧
    (K.MINOR i_rdev ≠ KVM_IVSHMEM_DEVICE_MINOR_NUM →
      (kvm_ivshmem_open K (w.setDev fun d => { d with enabled := b }) i_rdev).1 = -ENODEV) ∧
    (kvm_ivshmem_mmap K remap (w.setDev fun d => { d with enabled := b }) vma).1
      = (kvm_ivshmem_mmap K remap w vma).1 ∧
    (kvm_ivshmem_mmap K remap (w.setDev fun d => { d with enabled := b }) vma).2.1
      = (kvm_ivshmem_mmap K remap w vma).2.1 ∧
    (kvm_ivshmem_mmap K remap (w.setDev fun d => { d with enabled := b }) vma).2.2.trace
      = (kvm_ivshmem_mmap K remap w vma).2.2.trace := by
  refine ⟨?_, fun h => ?_, fun h => ?_, ?_, ?_, ?_⟩
  · unfold kvm_ivshmem_open; split <;> rfl
  · unfold kvm_ivshmem_open; rw [if_neg (not_not.mpr h)]
  · unfold kvm_ivshmem_open; rw [if_pos h]
  all_goals
    simp only [kvm_ivshmem_mmap, World.setDev, World.emit]
    split <;> [rfl; (split <;> rfl)]

/-- Witness of `open_and_mmap_ignore_enabled`: an attached device whose flag is
flipped from true to false. Minor 0 still opens, minor 1 is still refused, and
a one-page mapping request is answered `0` with the same page-install call as
with the flag true. -/
theorem open_and_mmap_ignore_enabled_witness :
    (kvm_ivshmem_probe_device all_ok boot low_pdev).2.kvm_ivshmem_dev.enabled = true ∧
    (kvm_ivshmem_open x86_64
      ((kvm_ivshmem_probe_device all_ok boot low_pdev).2.setDev
        fun d => { d with enabled := false }) 0).1 = 0 ∧
    (kvm_ivshmem_open x86_64
      ((kvm_ivshmem_probe_device all_ok boot low_pdev).2.setDev
        fun d => { d with enabled := false }) 1).1 = -ENODEV ∧
    (kvm_ivshmem_mmap x86_64 remap_ok
      ((kvm_ivshmem_probe_device all_ok boot low_pdev).2.setDev
        fun d => { d with enabled := false })
      { vm_start := 0x40000000, vm_end := 0x40001000, vm_pgoff := 0, vm_flags := 0,
        vm_page_prot := 0 }).1
      = (kvm_ivshmem_mmap x86_64 remap_ok (kvm_ivshmem_probe_device all_ok boot low_pdev).2
          { vm_start := 0x40000000, vm_end := 0x40001000, vm_pgoff := 0, vm_flags := 0,
            vm_page_prot := 0 }).1 ∧
    (kvm_ivshmem_mmap x86_64 remap_ok (kvm_ivshmem_probe_device all_ok boot low_pdev).2
      { vm_start := 0x40000000, vm_end := 0x40001000, vm_pgoff := 0, vm_flags := 0,
        vm_page_prot := 0 }).1 = 0 ∧
    (kvm_ivshmem_mmap x86_64 remap_ok
      ((kvm_ivshmem_probe_device all_ok boot low_pdev).2.setDev
        fun d => { d with enabled := false })
      { vm_start := 0x40000000, vm_end := 0x40001000, vm_pgoff := 0, vm_flags := 0,
        vm_page_prot := 0 }).2.2.trace
      = (kvm_ivshmem_mmap x86_64 remap_ok (kvm_ivshmem_probe_device all_ok boot low_pdev).2
          { vm_start := 0x40000000, vm_end := 0x40001000, vm_pgoff := 0, vm_flags := 0,
            vm_page_prot := 0 }).2.2.trace :=
  ⟨by decide,
   (open_and_mmap_ignore_enabled x86_64 remap_ok (kvm_ivshmem_probe_device all_ok boot low_pdev).2
      false 0
      { vm_start := 0x40000000, vm_end := 0x40001000, vm_pgoff := 0, vm_flags := 0,
        vm_page_prot := 0 }).2.1 (by decide),
   (open_and_mmap_ignore_enabled x86_64 remap_ok (kvm_ivshmem_probe_device all_ok boot low_pdev).2
      false 1
      { vm_start := 0x40000000, vm_end := 0x40001000, vm_pgoff := 0, vm_flags := 0,
        vm_page_prot := 0 }).2.2.1 (by decide),
   (open_and_mmap_ignore_enabled x86_64 remap_ok (kvm_ivshmem_probe_device all_ok boot low_pdev).2
      false 0
      { vm_start := 0x40000000, vm_end := 0x40001000, vm_pgoff := 0, vm_flags := 0,
        vm_page_prot := 0 }).2.2.2.1,
   by decide,
   (open_and_mmap_ignore_enabled x86_64 remap_ok (kvm_ivshmem_probe_device all_ok boot low_pdev).2
      false 0
      { vm_start := 0x40000000, vm_end := 0x40001000, vm_pgoff := 0, vm_flags := 0,
        vm_page_prot := 0 }).2.2.2.2.2⟩

/-- C8 fails on the code: with the enabled flag false (module load, then an
attach whose register mapping failed), minor 0 still opens, and a one-page
mapping request is accepted and reaches the page-install primitive. -/
theorem open_and_mmap_not_gated :
    boot.kvm_ivshmem_dev.enabled = false ∧
    (kvm_ivshmem_open x86_64 boot 0).1 = 0 ∧
    (kvm_ivshmem_probe_device bar0_fails boot low_pdev).1 = -EBUSY ∧
    (kvm_ivshmem_probe_device bar0_fails boot low_pdev).2.kvm_ivshmem_dev.enabled = false ∧
    (kvm_ivshmem_mmap x86_64 remap_ok (kvm_ivshmem_probe_device bar0_fails boot low_pdev).2
      { vm_start := 0x40000000, vm_end := 0x40001000, vm_pgoff := 0, vm_flags := 0,
        vm_page_prot := 0 }).1 = 0 ∧
    (kvm_ivshmem_mmap x86_64 remap_ok (kvm_ivshmem_probe_device bar0_fails boot low_pdev).2
      { vm_start := 0x40000000, vm_end := 0x40001000, vm_pgoff := 0, vm_flags := 0,
        vm_page_prot := 0 }).2.2.trace.getLast?
      = some (Event.io_remap_pfn_range 0x40000000 0xF0000 0x1000 0 0) := by
  decide

/-- Subtraction of `unsigned long` values in order does not wrap. -/
theorem ulong_sub_of_le (K : Kconfig) (a b : Nat) (hba : b ≤ a)
    (ha : a < 2 ^ K.BITS_PER_LONG) : ulong_sub K a b = a - b := by
  unfold ulong_sub ulong
  rw [Nat.mod_eq_of_lt ha, Nat.mod_eq_of_lt (lt_of_le_of_lt hba ha)]
  have h : a + (2 ^ K.BITS_PER_LONG - b) = (a - b) + 2 ^ K.BITS_PER_LONG := by omega
  rw [h, Nat.add_mod_right, Nat.mod_eq_of_lt (by omega)]

/-- Away from wraparound the window check of `kvm_ivshmem_mmap` is the one on
unbounded integers: a request whose byte offset plus length fits in an
`unsigned long` and exceeds the page-aligned window length is answered
`-EINVAL`, with no call made and the `vma` untouched. -/
theorem mmap_rejects_without_wraparound (K : Kconfig) (remap : Nat → Nat → Nat → Nat → Int)
    (w : World) (vma : vm_area_struct)
    (horder : vma.vm_start ≤ vma.vm_end)
    (hend : vma.vm_end < 2 ^ K.BITS_PER_LONG)
    (hnowrap : vma.vm_pgoff * 2 ^ K.PAGE_SHIFT + (vma.vm_end - vma.vm_start)
      < 2 ^ K.BITS_PER_LONG)
    (hover : PAGE_ALIGN K (ulong K (page_offset K (ulong K (uint w.kvm_ivshmem_dev.ioaddr))
          + uint w.kvm_ivshmem_dev.ioaddr_size))
      < vma.vm_pgoff * 2 ^ K.PAGE_SHIFT + (vma.vm_end - vma.vm_start)) :
    kvm_ivshmem_mmap K remap w vma = (-EINVAL, vma, w) := by
  have hoff : ulong K (vma.vm_pgoff <<< K.PAGE_SHIFT) = vma.vm_pgoff * 2 ^ K.PAGE_SHIFT := by
    unfold ulong
    rw [Nat.shiftLeft_eq]
    exact Nat.mod_eq_of_lt (by omega)
  have hsum : ulong K (ulong_sub K vma.vm_end vma.vm_start
      + ulong K (vma.vm_pgoff <<< K.PAGE_SHIFT))
      = vma.vm_pgoff * 2 ^ K.PAGE_SHIFT + (vma.vm_end - vma.vm_start) := by
    rw [hoff, ulong_sub_of_le K _ _ horder hend]
    unfold ulong
    rw [Nat.mod_eq_of_lt (by omega)]
    omega
  simp only [kvm_ivshmem_mmap]
  rw [if_pos (by rw [hsum]; exact hover)]

/-- Witness of `mmap_rejects_without_wraparound`: one page at offset 1 MiB of a 1 MiB window. -/
theorem mmap_rejects_without_wraparound_witness :
    kvm_ivshmem_mmap x86_64 remap_ok (kvm_ivshmem_probe_device all_ok boot low_pdev).2
      { vm_start := 0x40000000, vm_end := 0x40001000, vm_pgoff := 0x100, vm_flags := 0,
        vm_page_prot := 0 }
      = (-EINVAL,
         { vm_start := 0x40000000, vm_end := 0x40001000, vm_pgoff := 0x100, vm_flags := 0,
           vm_page_prot := 0 },
         (kvm_ivshmem_probe_device all_ok boot low_pdev).2) :=
  mmap_rejects_without_wraparound x86_64 remap_ok (kvm_ivshmem_probe_device all_ok boot low_pdev).2
    { vm_start := 0x40000000, vm_end := 0x40001000, vm_pgoff := 0x100, vm_flags := 0,
      vm_page_prot := 0 } (by decide) (by decide) (by decide) (by decide)

/-! ## Mapping -/

/-- The page-aligned window length fits in an `unsigned long`. -/
theorem PAGE_ALIGN_lt (K : Kconfig) (x : Nat) : PAGE_ALIGN K x < 2 ^ K.BITS_PER_LONG := by
  unfold PAGE_ALIGN page_base ulong
  exact lt_of_le_of_lt (Nat.div_mul_le_self _ _) (Nat.mod_lt _ (by positivity))

/-- C2, as the code has it: on an enabled device, a well-formed mapping request
(`vm_start ≤ vm_end`, both `unsigned long`) whose byte offset plus length,
`vm_pgoff * 2^PAGE_SHIFT + (vm_end - vm_start)` taken as unbounded integers, is
at most the page-aligned window length is answered `0`, provided the
page-install call it makes reports success. -/
theorem mmap_succeeds_within_window (K : Kconfig) (remap : Nat → Nat → Nat → Nat → Int)
    (w : World) (vma : vm_area_struct)
    (henabled : w.kvm_ivshmem_dev.enabled = true)
    (horder : vma.vm_start ≤ vma.vm_end)
    (hend : vma.vm_end < 2 ^ K.BITS_PER_LONG)
    (hfit : vma.vm_pgoff * 2 ^ K.PAGE_SHIFT + (vma.vm_end - vma.vm_start)
      ≤ PAGE_ALIGN K (ulong K (page_offset K (ulong K (uint w.kvm_ivshmem_dev.ioaddr))
          + uint w.kvm_ivshmem_dev.ioaddr_size)))
    (hremap : remap vma.vm_start (mmap_pfn K w vma) (vma.vm_end - vma.vm_start)
      vma.vm_page_prot = 0) :
    (kvm_ivshmem_mmap K remap w vma).1 = 0 := by
  have _ := henabled
  have hlen := PAGE_ALIGN_lt K (ulong K (page_offset K (ulong K (uint w.kvm_ivshmem_dev.ioaddr))
    + uint w.kvm_ivshmem_dev.ioaddr_size))
  have hoff : ulong K (vma.vm_pgoff <<< K.PAGE_SHIFT) = vma.vm_pgoff * 2 ^ K.PAGE_SHIFT := by
    unfold ulong
    rw [Nat.shiftLeft_eq]
    exact Nat.mod_eq_of_lt (by omega)
  have hsub := ulong_sub_of_le K _ _ horder hend
  have hsum : ulong K (ulong_sub K vma.vm_end vma.vm_start
      + ulong K (vma.vm_pgoff <<< K.PAGE_SHIFT))
      = vma.vm_pgoff * 2 ^ K.PAGE_SHIFT + (vma.vm_end - vma.vm_start) := by
    rw [hoff, hsub]
    unfold ulong
    rw [Nat.mod_eq_of_lt (by omega)]
    omega
  unfold mmap_pfn at hremap
  simp only [kvm_ivshmem_mmap]
  rw [if_neg (by rw [hsum]; omega), hsub, hremap]
  simp

/-- Witness of `mmap_succeeds_within_window`: the last page of a 1 MiB window. -/
theorem mmap_succeeds_within_window_witness :
    (kvm_ivshmem_mmap x86_64 remap_ok (kvm_ivshmem_probe_device all_ok boot low_pdev).2
      { vm_start := 0x40000000, vm_end := 0x40001000, vm_pgoff := 0xff, vm_flags := 0,
        vm_page_prot := 0 }).1 = 0 :=
  mmap_succeeds_within_window x86_64 remap_ok (kvm_ivshmem_probe_device all_ok boot low_pdev).2
    { vm_start := 0x40000000, vm_end := 0x40001000, vm_pgoff := 0xff, vm_flags := 0,
      vm_page_prot := 0 } (by decide) (by decide) (by decide) (by decide) rfl

/-- C2 fails on the code: on an enabled device with a 1 MiB window, a one-page
request (length at most the window size) at page offset 0x100 is answered
`-EINVAL` although the page-install primitive would succeed. -/
theorem mmap_rejects_offset_past_window :
    (kvm_ivshmem_probe_device all_ok boot low_pdev).2.kvm_ivshmem_dev.enabled = true ∧
    (kvm_ivshmem_probe_device all_ok boot low_pdev).2.kvm_ivshmem_dev.ioaddr_size = 0x100000 ∧
    (0x40001000 - 0x40000000 : Nat) ≤ 0x100000 ∧
    (kvm_ivshmem_mmap x86_64 remap_ok (kvm_ivshmem_probe_device all_ok boot low_pdev).2
      { vm_start := 0x40000000, vm_end := 0x40001000, vm_pgoff := 0x100, vm_flags := 0,
        vm_page_prot := 0 }).1 = -EINVAL := by
  decide

/-- C1 fails on the code: on a 32-bit kernel, page offset `0x100000` shifts to
byte offset `0` in `unsigned long`. The request lies 4 GiB past a 1 MiB window,
yet it is answered `0`, the page-install primitive is called for the first page
of the window, and `vm_pgoff` and `vm_flags` are rewritten. -/
theorem mmap_offset_wraps_past_check :
    (kvm_ivshmem_probe_device all_ok boot low_pdev).2.kvm_ivshmem_dev.ioaddr = 0xF0000000 ∧
    (kvm_ivshmem_probe_device all_ok boot low_pdev).2.kvm_ivshmem_dev.ioaddr_size = 0x100000 ∧
    PAGE_ALIGN i386 (0xF0000000 % PAGE_SIZE i386 + 0x100000) = 0x100000 ∧
    0x100000 * PAGE_SIZE i386 + (0x40001000 - 0x40000000) > 0x100000 ∧
    kvm_ivshmem_mmap i386 remap_ok (kvm_ivshmem_probe_device all_ok boot low_pdev).2
      { vm_start := 0x40000000, vm_end := 0x40001000, vm_pgoff := 0x100000, vm_flags := 0,
        vm_page_prot := 0 }
      = (0,
         { vm_start := 0x40000000, vm_end := 0x40001000, vm_pgoff := 0xF0000,
           vm_flags := 0x04040008, vm_page_prot := 0 },
         (kvm_ivshmem_probe_device all_ok boot low_pdev).2.emit
           (Event.io_remap_pfn_range 0x40000000 0xF0000 0x1000 0 0)) := by
  refine ⟨by decide, by decide, by decide, by decide, ?_⟩
  rfl

/-- C3 fails on the code: the shared-memory BAR is assigned at 4 GiB; the probe
succeeds and keeps the base in an `unsigned int`, so `ioaddr` is `0`. A one-page
request at offset 0 is then installed at page frame `0`, not at the frame
`0x100000` of the window. -/
theorem mmap_installs_truncated_base :
    high_pdev.resource_start 2 = 0x100000000 ∧
    (kvm_ivshmem_probe_device all_ok boot high_pdev).1 = 0 ∧
    (kvm_ivshmem_probe_device all_ok boot high_pdev).2.kvm_ivshmem_dev.ioaddr = 0 ∧
    (page_base x86_64 (high_pdev.resource_start 2) + 0 * PAGE_SIZE x86_64) / PAGE_SIZE x86_64
      = 0x100000 ∧
    (kvm_ivshmem_mmap x86_64 remap_ok (kvm_ivshmem_probe_device all_ok boot high_pdev).2
      { vm_start := 0x40000000, vm_end := 0x40001000, vm_pgoff := 0, vm_flags := 0,
        vm_page_prot := 0 }).1 = 0 ∧
    (kvm_ivshmem_mmap x86_64 remap_ok (kvm_ivshmem_probe_device all_ok boot high_pdev).2
      { vm_start := 0x40000000, vm_end := 0x40001000, vm_pgoff := 0, vm_flags := 0,
        vm_page_prot := 0 }).2.2.trace.getLast?
      = some (Event.io_remap_pfn_range 0x40000000 0 0x1000 0 0) := by
  decide

/-! ## Command dispatcher -/

/-- The pattern loop, started anywhere in the `int` range with enough fuel to
reach `size`: through a mapped pointer it exits and leaves `pattern_from`
behind; through an unmapped one it faults at its first store, if it has one to
make. It never runs out of fuel. -/
theorem write_test_bitmap_pattern_loop_eq (mapped : Bool) (size : Nat) (hsize : size < 2 ^ 32) :
    ∀ (fuel : Nat) (i : Int) (m : Int → Nat), -2 ^ 31 ≤ i → i < 2 ^ 31 →
      size ≤ int_to_uint i + fuel →
      write_test_bitmap_pattern_loop mapped size fuel i m =
        if mapped = true ∨ size ≤ int_to_uint i then Outcome.returns (pattern_from size i m)
        else Outcome.faults := by
  have hdone : ∀ (i : Int) (m : Int → Nat), ¬ int_to_uint i < size →
      (Outcome.returns m : Outcome (Int → Nat)) =
        if mapped = true ∨ size ≤ int_to_uint i then Outcome.returns (pattern_from size i m)
        else Outcome.faults := by
    intro i m hc
    rw [if_pos (Or.inr (by omega))]
    congr 1
    funext off
    unfold pattern_from
    have : ¬ (-2 ^ 31 ≤ off ∧ off < 2 ^ 31 ∧ int_to_uint i ≤ int_to_uint off ∧
        int_to_uint off < size) := by omega
    rw [if_neg this]
  intro fuel
  induction fuel with
  | zero =>
    intro i m _ _ hf
    have hc : ¬ int_to_uint i < size := by omega
    simp only [write_test_bitmap_pattern_loop, hc, if_false]
    exact hdone i m hc
  | succ fuel ih =>
    intro i m hlo hhi hf
    by_cases hc : int_to_uint i < size
    · cases mapped with
      | false =>
        simp only [write_test_bitmap_pattern_loop, hc, if_true]
        rw [if_neg (by simp), if_neg (by simp; omega)]
      | true =>
        have hnext : int_to_uint (to_int (i + 1)) = int_to_uint i + 1 := by
          unfold int_to_uint to_int at *; omega
        have hlo1 : -2 ^ 31 ≤ to_int (i + 1) := by unfold to_int; omega
        have hhi1 : to_int (i + 1) < 2 ^ 31 := by unfold to_int; omega
        simp only [write_test_bitmap_pattern_loop, hc, if_true]
        rw [ih _ _ hlo1 hhi1 (by omega), if_pos (Or.inl rfl), if_pos (Or.inl trivial)]
        congr 1
        funext off
        unfold pattern_from
        rw [hnext]
        by_cases hoff : off = i
        · subst hoff
          have h1 : -2 ^ 31 ≤ off ∧ off < 2 ^ 31 ∧ int_to_uint off ≤ int_to_uint off ∧
              int_to_uint off < size := ⟨hlo, hhi, le_refl _, hc⟩
          have h2 : ¬ (-2 ^ 31 ≤ off ∧ off < 2 ^ 31 ∧ int_to_uint off + 1 ≤ int_to_uint off ∧
              int_to_uint off < size) := by omega
          rw [if_pos h1, if_neg h2, Function.update_same]
        · rw [Function.update_noteq hoff]
          have hne : -2 ^ 31 ≤ off → off < 2 ^ 31 → int_to_uint off ≠ int_to_uint i := by
            unfold int_to_uint; omega
          by_cases h1 : -2 ^ 31 ≤ off ∧ off < 2 ^ 31 ∧ int_to_uint i ≤ int_to_uint off ∧
              int_to_uint off < size
          · have h2 : -2 ^ 31 ≤ off ∧ off < 2 ^ 31 ∧ int_to_uint i + 1 ≤ int_to_uint off ∧
                int_to_uint off < size := by
              have := hne h1.1 h1.2.1
              omega
            rw [if_pos h1, if_pos h2]
          · have h2 : ¬ (-2 ^ 31 ≤ off ∧ off < 2 ^ 31 ∧ int_to_uint i + 1 ≤ int_to_uint off ∧
                int_to_uint off < size) := by omega
            rw [if_neg h1, if_neg h2]
    · simp only [write_test_bitmap_pattern_loop, hc, if_false]
      exact hdone i m hc

theorem uint_lt (x : Nat) : uint x < 2 ^ 32 := by
  unfold uint; omega

/-- The function `write_test_bitmap_pattern` never runs out of fuel: on an
unmapped window (`NULL`) it changes nothing, through a pointer at which BAR 2 is
mapped it leaves `pattern_from` behind, and through any other pointer it faults
unless the size is zero. -/
theorem write_test_bitmap_pattern_eq (w : World) :
    write_test_bitmap_pattern w =
      if w.kvm_ivshmem_dev.base_addr = 0 then Outcome.returns w
      else if (2, w.kvm_ivshmem_dev.base_addr) ∈ w.bus.iomaps
          ∨ uint w.kvm_ivshmem_dev.ioaddr_size = 0 then
        Outcome.returns
          { w with shmem := pattern_from (uint w.kvm_ivshmem_dev.ioaddr_size) 0 w.shmem }
      else Outcome.faults := by
  unfold write_test_bitmap_pattern
  by_cases hb : w.kvm_ivshmem_dev.base_addr = 0
  · simp [hb]
  · have hfuel : uint w.kvm_ivshmem_dev.ioaddr_size ≤ int_to_uint 0 + 2 ^ 32 := by
      have := uint_lt w.kvm_ivshmem_dev.ioaddr_size
      omega
    have h0 : int_to_uint 0 = 0 := by decide
    simp only [hb, if_false]
    rw [write_test_bitmap_pattern_loop_eq _ _ (uint_lt _) _ 0 _ (by norm_num) (by norm_num) hfuel]
    by_cases hm : (2, w.kvm_ivshmem_dev.base_addr) ∈ w.bus.iomaps
    · rw [if_pos (Or.inl (decide_eq_true hm)), if_pos (Or.inl hm)]
      rfl
    · by_cases hz : uint w.kvm_ivshmem_dev.ioaddr_size = 0
      · rw [if_pos (Or.inr (by omega)), if_pos (Or.inr hz)]
        rfl
      · rw [if_neg (by simp [hm, h0, hz]), if_neg (by simp [hm, hz])]
        rfl

/-- The pattern fill on a mapped window of at most 2 GiB: every byte of the
window holds `'A' + (i mod 4)` and nothing outside the window is written. -/
theorem pattern_fill_up_to_2GiB (w : World) (hmapped : w.kvm_ivshmem_dev.base_addr ≠ 0)
    (hlive : (2, w.kvm_ivshmem_dev.base_addr) ∈ w.bus.iomaps)
    (hsmall : uint w.kvm_ivshmem_dev.ioaddr_size ≤ 2 ^ 31) :
    ∃ w1, handle_ivshmen_cmd 1 w = Outcome.returns w1 ∧
      (∀ i : Nat, i < uint w.kvm_ivshmem_dev.ioaddr_size → w1.shmem i = 65 + i % 4) ∧
      (∀ off : Int, (off < 0 ∨ (uint w.kvm_ivshmem_dev.ioaddr_size : Int) ≤ off) →
        w1.shmem off = w.shmem off) := by
  refine ⟨{ w with shmem := pattern_from (uint w.kvm_ivshmem_dev.ioaddr_size) 0 w.shmem }, ?_, ?_, ?_⟩
  · simp only [handle_ivshmen_cmd, if_true, write_test_bitmap_pattern_eq]
    rw [if_neg hmapped, if_pos (Or.inl hlive)]
  · intro i hi
    dsimp only
    unfold pattern_from
    have hu : int_to_uint (i : Int) = i := by unfold int_to_uint; omega
    have h0 : int_to_uint 0 = 0 := by decide
    rw [if_pos ⟨by omega, by omega, by omega, by omega⟩]
    rw [Int.tmod_eq_emod (by omega) (by norm_num)]
    unfold to_uchar
    omega
  · intro off hoff
    dsimp only
    unfold pattern_from
    have : ¬ (-2 ^ 31 ≤ off ∧ off < 2 ^ 31 ∧ int_to_uint 0 ≤ int_to_uint off ∧
        int_to_uint off < uint w.kvm_ivshmem_dev.ioaddr_size) := by
      unfold int_to_uint; omega
    rw [if_neg this]

/-- Witness of `pattern_fill_up_to_2GiB`: a 1 MiB window. -/
theorem pattern_fill_up_to_2GiB_witness :
    ∃ w1, handle_ivshmen_cmd 1 (kvm_ivshmem_probe_device all_ok boot low_pdev).2
        = Outcome.returns w1 ∧
      (∀ i : Nat, i < uint 0x100000 → w1.shmem i = 65 + i % 4) ∧
      (∀ off : Int, (off < 0 ∨ (uint 0x100000 : Int) ≤ off) → w1.shmem off = 0) :=
  pattern_fill_up_to_2GiB (kvm_ivshmem_probe_device all_ok boot low_pdev).2
    (by decide) (by decide) (by decide)

/-- C4 fails on the code: on a mapped window of 2 GiB + 2 bytes of zeroes, the
`int` counter of the pattern fill wraps after offset `2^31 - 1`. All is well up
to there, the last two bytes of the window (offsets `2^31` and `2^31 + 1`) keep
their prior content where the pattern has `'A'` and `'B'`, and the two bytes at
offsets `-2^31` and `-2^31 + 1`, 2 GiB before the window, are written instead. -/
theorem pattern_fill_wraps_above_2GiB :
    (kvm_ivshmem_probe_device all_ok boot wide_pdev).2.kvm_ivshmem_dev.base_addr ≠ 0 ∧
    (kvm_ivshmem_probe_device all_ok boot wide_pdev).2.kvm_ivshmem_dev.ioaddr_size
      = 2 ^ 31 + 2 ∧
    ∃ w1, handle_ivshmen_cmd 1 (kvm_ivshmem_probe_device all_ok boot wide_pdev).2
        = Outcome.returns w1 ∧
      w1.shmem (2 ^ 31 - 1) = 65 + (2 ^ 31 - 1) % 4 ∧
      w1.shmem (2 ^ 31) = 0 ∧
      w1.shmem (2 ^ 31 + 1) = 0 ∧
      w1.shmem (-2 ^ 31) = 65 ∧
      w1.shmem (-2 ^ 31 + 1) = 62 := by
  refine ⟨by decide, by decide,
    { (kvm_ivshmem_probe_device all_ok boot wide_pdev).2 with
      shmem := pattern_from (2 ^ 31 + 2) 0 zero_shmem }, ?_, ?_⟩
  · simp only [handle_ivshmen_cmd, if_true, write_test_bitmap_pattern_eq]
    rw [if_neg (by decide), if_pos (Or.inl (by decide))]
    rfl
  · refine ⟨?_, ?_, ?_, ?_, ?_⟩ <;> decide

/-- With the control-register window mapped at `regs`, dispatching a comm-write
operand `V` of `0x50`, `0x51` or `0x52` makes exactly one call, a register
write of `V` at offset `0x10`; afterwards the general command register holds
`V`, every other control register and every byte of memory is as before, and so
are the device record and the held resources. -/
theorem comm_write_frame (w : World) (V : Nat) (hV : V = 0x50 ∨ V = 0x51 ∨ V = 0x52)
    (hregs : (0, w.kvm_ivshmem_dev.regs) ∈ w.bus.iomaps) :
    ∃ w1, handle_ivshmen_cmd (V : Int) w = Outcome.returns w1 ∧
      w1.trace = w.trace ++ [Event.writel V UMA_COMM] ∧
      w1.ctrl UMA_COMM = V ∧
      w1.ctrl IntrMask = w.ctrl IntrMask ∧
      w1.ctrl IntrStatus = w.ctrl IntrStatus ∧
      w1.ctrl IVPosition = w.ctrl IVPosition ∧
      w1.ctrl Doorbell = w.ctrl Doorbell ∧
      (∀ offset, offset ≠ UMA_COMM → w1.ctrl offset = w.ctrl offset) ∧
      w1.shmem = w.shmem ∧
      w1.kvm_ivshmem_dev = w.kvm_ivshmem_dev ∧
      w1.bus = w.bus := by
  have hu : uint (int_to_uint (V : Int)) = V := by
    unfold uint int_to_uint; omega
  refine ⟨mmio_store (int_to_uint (V : Int)) UMA_COMM w, ?_, ?_, ?_, ?_, ?_, ?_, ?_, ?_, rfl, rfl, rfl⟩
  · have hw : writel (int_to_uint (V : Int)) UMA_COMM w
        = Outcome.returns (mmio_store (int_to_uint (V : Int)) UMA_COMM w) := by
      unfold writel
      rw [if_pos hregs]
    rw [← hw]
    unfold handle_ivshmen_cmd
    rcases hV with h | h | h <;> subst h <;> rfl
  · simp only [mmio_store, World.emit, hu]
  · simp only [mmio_store, World.emit, hu, Function.update_same]
  · simp only [mmio_store, World.emit]
    exact Function.update_noteq (by decide : IntrMask ≠ UMA_COMM) _ _
  · simp only [mmio_store, World.emit]
    exact Function.update_noteq (by decide : IntrStatus ≠ UMA_COMM) _ _
  · simp only [mmio_store, World.emit]
    exact Function.update_noteq (by decide : IVPosition ≠ UMA_COMM) _ _
  · simp only [mmio_store, World.emit]
    exact Function.update_noteq (by decide : Doorbell ≠ UMA_COMM) _ _
  · intro offset ho
    simp only [mmio_store, World.emit]
    exact Function.update_noteq ho _ _

/-- Witness of `comm_write_frame`: operand `0x51` on an attached device. -/
theorem comm_write_frame_witness :
    ∃ w1, handle_ivshmen_cmd 0x51 (kvm_ivshmem_probe_device all_ok boot low_pdev).2
        = Outcome.returns w1 ∧
      w1.trace = (kvm_ivshmem_probe_device all_ok boot low_pdev).2.trace
        ++ [Event.writel 0x51 UMA_COMM] ∧
      w1.ctrl UMA_COMM = 0x51 ∧
      w1.ctrl IntrMask = 0 ∧
      w1.ctrl IntrStatus = 0 ∧
      w1.ctrl IVPosition = 0 ∧
      w1.ctrl Doorbell = 0 ∧
      (∀ offset, offset ≠ UMA_COMM →
        w1.ctrl offset = (kvm_ivshmem_probe_device all_ok boot low_pdev).2.ctrl offset) ∧
      w1.shmem = zero_shmem ∧
      w1.kvm_ivshmem_dev = (kvm_ivshmem_probe_device all_ok boot low_pdev).2.kvm_ivshmem_dev ∧
      w1.bus = (kvm_ivshmem_probe_device all_ok boot low_pdev).2.bus :=
  comm_write_frame (kvm_ivshmem_probe_device all_ok boot low_pdev).2 0x51 (Or.inr (Or.inl rfl))
    (by decide)

/-- C5 fails on the code: the comm-write path stores through `regs + 0x10`
without the `NULL` test its sibling paths make on `bitmap`. With no device
attached (`regs` is `NULL`), after an attach whose register mapping failed
(`regs` is `NULL`), and after a detach (`regs` is stale), no control window is
mapped at `regs` and the dispatch of `0x50`, `0x51` or `0x52` faults: no value
reaches the general command register. -/
theorem comm_write_faults_without_registers :
    boot.kvm_ivshmem_dev.regs = 0 ∧
    handle_ivshmen_cmd 0x50 boot = Outcome.faults ∧
    handle_ivshmen_cmd 0x51 boot = Outcome.faults ∧
    handle_ivshmen_cmd 0x52 boot = Outcome.faults ∧
    (kvm_ivshmem_probe_device bar0_fails boot low_pdev).2.kvm_ivshmem_dev.regs = 0 ∧
    handle_ivshmen_cmd 0x50 (kvm_ivshmem_probe_device bar0_fails boot low_pdev).2
      = Outcome.faults ∧
    (run boot [BusEvent.attach all_ok low_pdev, BusEvent.detach low_pdev]).kvm_ivshmem_dev.regs
      = 0x100000 ∧
    (run boot [BusEvent.attach all_ok low_pdev, BusEvent.detach low_pdev]).bus.iomaps = [] ∧
    handle_ivshmen_cmd 0x50 (run boot [BusEvent.attach all_ok low_pdev, BusEvent.detach low_pdev])
      = Outcome.faults := by
  refine ⟨rfl, rfl, rfl, rfl, by decide, rfl, by decide, by decide, rfl⟩

/-- In the probe, the store to the interrupt mask goes through a mapped
pointer: once `pci_iomap` has returned a non-`NULL` address for BAR 0 and it is
recorded in `regs`, `writel` returns, and its effect is `mmio_store`. -/
theorem writel_after_iomap (w : World) (addr value offset : Nat) (haddr : addr ≠ 0) :
    writel value offset ((pci_iomap 0 addr w).2.setDev fun d => { d with regs := addr })
      = Outcome.returns
          (mmio_store value offset
            ((pci_iomap 0 addr w).2.setDev fun d => { d with regs := addr })) := by
  unfold writel
  rw [if_pos (by simp [pci_iomap, World.setDev, World.emit, haddr])]

/-- Witness of `writel_after_iomap`: the register window mapped at `0x100000`. -/
theorem writel_after_iomap_witness :
    writel 0 IntrMask ((pci_iomap 0 0x100000 boot).2.setDev fun d => { d with regs := 0x100000 })
      = Outcome.returns
          (mmio_store 0 IntrMask
            ((pci_iomap 0 0x100000 boot).2.setDev fun d => { d with regs := 0x100000 })) :=
  writel_after_iomap boot 0x100000 0 IntrMask (by decide)

/-- The control channel is open with no device attached: at module load the
request `IVSHMEM_IOCTL_COMM` with operand `0x50` faults instead of returning. -/
theorem ioctl_faults_without_device :
    kvm_ivshmem_ioctl x86_64 boot x86_64.IVSHMEM_IOCTL_COMM 0x50 = Outcome.faults := by
  rfl

/-! ## Attach and detach -/

/-- C10: when `kvm_ivshmem_probe_device` returns non-zero, the held bus
resources (enable count, region claims, BAR mappings) are what they were
before the call; the calls it made release, in reverse order and once each,
exactly the resources they acquired; and no register was written. -/
theorem failed_probe_unwinds (o : BusAnswers) (w : World) (pdev : pci_dev)
    (hfail : (kvm_ivshmem_probe_device o w pdev).1 ≠ 0) :
    (kvm_ivshmem_probe_device o w pdev).2.bus = w.bus ∧
    (kvm_ivshmem_probe_device o w pdev).2.ctrl = w.ctrl ∧
    ∃ evs, (kvm_ivshmem_probe_device o w pdev).2.trace = w.trace ++ evs ∧
      released evs = (acquired evs).reverse ∧
      (acquired evs).Nodup ∧
      (∀ e ∈ evs, e.is_writel = false) := by
  obtain ⟨er, rq, m2, m0⟩ := o
  obtain ⟨d, c, s, ⟨en, rg, io⟩, tr⟩ := w
  by_cases h1 : er = 0
  · subst h1
    cases rq
    · refine ⟨?_, rfl, [Event.pci_enable_device 0, Event.pci_request_regions (-EBUSY),
        Event.pci_disable_device], ?_, ?_, ?_, ?_⟩
      · simp [kvm_ivshmem_probe_device, pci_enable_device, pci_request_regions,
          probe_pci_disable, pci_disable_device, World.emit, EBUSY]
      · simp [kvm_ivshmem_probe_device, pci_enable_device, pci_request_regions,
          probe_pci_disable, pci_disable_device, World.emit, EBUSY]
      · decide
      · decide
      · decide
    · by_cases h2 : m2 = 0
      · subst h2
        refine ⟨?_, rfl, [Event.pci_enable_device 0, Event.pci_request_regions 0,
          Event.pci_iomap 2 0, Event.pci_release_regions, Event.pci_disable_device], ?_, ?_, ?_, ?_⟩
        · simp [kvm_ivshmem_probe_device, pci_enable_device, pci_request_regions, pci_iomap,
            probe_pci_release, pci_release_regions, World.setDev,
            probe_pci_disable, pci_disable_device, World.emit]
        · simp [kvm_ivshmem_probe_device, pci_enable_device, pci_request_regions, pci_iomap,
            probe_pci_release, pci_release_regions, World.setDev,
            probe_pci_disable, pci_disable_device, World.emit]
        · decide
        · decide
        · decide
      · by_cases h3 : m0 = 0
        · subst h3
          refine ⟨?_, ?_, [Event.pci_enable_device 0, Event.pci_request_regions 0,
            Event.pci_iomap 2 m2, Event.pci_iomap 0 0, Event.pci_iounmap m2,
            Event.pci_release_regions, Event.pci_disable_device], ?_, ?_, ?_, ?_⟩
          · simp [kvm_ivshmem_probe_device, pci_enable_device, pci_request_regions, pci_iomap,
              probe_reg_release, pci_iounmap, probe_pci_release, pci_release_regions,
              World.setDev, probe_pci_disable, pci_disable_device, World.emit, h2]
          · simp [kvm_ivshmem_probe_device, pci_enable_device, pci_request_regions, pci_iomap,
              probe_reg_release, pci_iounmap, probe_pci_release, pci_release_regions,
              World.setDev, probe_pci_disable, pci_disable_device, World.emit, h2]
          · simp [kvm_ivshmem_probe_device, pci_enable_device, pci_request_regions, pci_iomap,
              probe_reg_release, pci_iounmap, probe_pci_release, pci_release_regions,
              World.setDev, probe_pci_disable, pci_disable_device, World.emit, h2]
          · simp [released, acquired, Event.releases, Event.acquires, h2]
          · simp [acquired, Event.acquires, h2]
          · simp [Event.is_writel]
        · exfalso
          apply hfail
          simp [kvm_ivshmem_probe_device, pci_enable_device, pci_request_regions, pci_iomap,
            World.setDev, mmio_store, World.emit, h2, h3]
  · refine ⟨?_, ?_, [Event.pci_enable_device er], ?_, ?_, ?_, ?_⟩
    · simp [kvm_ivshmem_probe_device, pci_enable_device, World.emit, h1]
    · simp [kvm_ivshmem_probe_device, pci_enable_device, World.emit, h1]
    · simp [kvm_ivshmem_probe_device, pci_enable_device, World.emit, h1]
    · simp [released, acquired, Event.releases, Event.acquires, h1]
    · simp [acquired, Event.acquires, h1]
    · simp [Event.is_writel]

/-- Witness of `failed_probe_unwinds`: the mapping of the register window fails. -/
theorem failed_probe_unwinds_witness :
    (kvm_ivshmem_probe_device bar0_fails boot low_pdev).1 ≠ 0 ∧
    (kvm_ivshmem_probe_device bar0_fails boot low_pdev).2.bus = boot.bus :=
  ⟨by decide, (failed_probe_unwinds bar0_fails boot low_pdev (by decide)).1⟩

/-- Right after an attach that returns `0`, from a state with no negative claim
count, `enabled` is true and both BAR 0 and BAR 2 are claimed and mapped. -/
theorem probe_success_claims_both (o : BusAnswers) (w : World) (pdev : pci_dev)
    (hok : (kvm_ivshmem_probe_device o w pdev).1 = 0) (hregions : 0 ≤ w.bus.regions) :
    (kvm_ivshmem_probe_device o w pdev).2.kvm_ivshmem_dev.enabled = true ∧
    (kvm_ivshmem_probe_device o w pdev).2.bus.claimed_and_mapped 0 ∧
    (kvm_ivshmem_probe_device o w pdev).2.bus.claimed_and_mapped 2 := by
  obtain ⟨er, rq, m2, m0⟩ := o
  obtain ⟨d, c, s, ⟨en, rg, io⟩, tr⟩ := w
  simp only at hregions
  by_cases h1 : er = 0
  · subst h1
    cases rq
    · exact absurd hok (by
        simp [kvm_ivshmem_probe_device, pci_enable_device, pci_request_regions,
          probe_pci_disable, pci_disable_device, World.emit, EBUSY])
    · by_cases h2 : m2 = 0
      · subst h2
        exact absurd hok (by
          simp [kvm_ivshmem_probe_device, pci_enable_device, pci_request_regions, pci_iomap,
            probe_pci_release, pci_release_regions, World.setDev,
            probe_pci_disable, pci_disable_device, World.emit, EBUSY])
      · by_cases h3 : m0 = 0
        · subst h3
          exact absurd hok (by
            simp [kvm_ivshmem_probe_device, pci_enable_device, pci_request_regions, pci_iomap,
              probe_reg_release, pci_iounmap, probe_pci_release, pci_release_regions,
              World.setDev, probe_pci_disable, pci_disable_device, World.emit, h2, EBUSY])
        · have hpos : 0 < rg + 1 := by omega
          simp [kvm_ivshmem_probe_device, pci_enable_device, pci_request_regions, pci_iomap,
            World.setDev, mmio_store, World.emit, h2, h3, Bus.claimed_and_mapped, hpos]
  · exact absurd hok (by
      simp [kvm_ivshmem_probe_device, pci_enable_device, World.emit, h1])

/-- Witness of `probe_success_claims_both`: the first attach after module load. -/
theorem probe_success_claims_both_witness :
    (kvm_ivshmem_probe_device all_ok boot low_pdev).2.kvm_ivshmem_dev.enabled = true ∧
    (kvm_ivshmem_probe_device all_ok boot low_pdev).2.bus.claimed_and_mapped 0 ∧
    (kvm_ivshmem_probe_device all_ok boot low_pdev).2.bus.claimed_and_mapped 2 :=
  probe_success_claims_both all_ok boot low_pdev (by decide) (by decide)

/-- C9 fails on the code: from the initial state, an attach that succeeds
followed by a detach leaves `enabled` true while nothing is held: the regions
are released and neither BAR 0 nor BAR 2 is mapped. -/
theorem enabled_survives_detach :
    boot.kvm_ivshmem_dev.enabled = false ∧
    boot.bus = { enable_cnt := 0, regions := 0, iomaps := [] } ∧
    (run boot [BusEvent.attach all_ok low_pdev, BusEvent.detach low_pdev]).kvm_ivshmem_dev.enabled
      = true ∧
    (run boot [BusEvent.attach all_ok low_pdev, BusEvent.detach low_pdev]).bus
      = { enable_cnt := 0, regions := 0, iomaps := [] } ∧
    ¬ (run boot [BusEvent.attach all_ok low_pdev, BusEvent.detach low_pdev]).bus.claimed_and_mapped 0 ∧
    ¬ (run boot [BusEvent.attach all_ok low_pdev, BusEvent.detach low_pdev]).bus.claimed_and_mapped 2 := by
  have hbus : (run boot [BusEvent.attach all_ok low_pdev, BusEvent.detach low_pdev]).bus
      = { enable_cnt := 0, regions := 0, iomaps := [] } := by decide
  refine ⟨by decide, by decide, by decide, hbus, ?_, ?_⟩
  · rw [hbus]
    intro h
    exact absurd h.1 (by decide)
  · rw [hbus]
    intro h
    exact absurd h.1 (by decide)

end Ivshmem
